import Mathlib

/-!
Shallow embedding of the rag-workshop repository (backend FastAPI service in
`src/backend/app/main.py` / `src/backend/app/rag_pipeline.py`, and the Flask
gateway in `src/frontend/app.py`).

External collaborators (the PDF loader, the text splitter, the embedding
similarity scoring and the completion model) are parameters of the embedded
functions; everything the repository itself computes (metadata tagging, the
doc_id equality filter with k = 5, snippet truncation, error mapping, session
handling) is translated directly from the source.
-/

namespace Rag

/-- A metadata value as stored in a chunk's metadata dict (string or int). -/
inductive MVal where
  | str : String → MVal
  | int : Int → MVal
deriving DecidableEq, Repr

/-- Python-dict view of a chunk's metadata: lookup by key. -/
def mget (m : List (String × MVal)) (k : String) : Option MVal :=
  (m.find? (fun p => p.1 == k)).map (fun p => p.2)

/-- `metadata[k] = v` (dict assignment, modelled up to lookup equivalence). -/
def mset (m : List (String × MVal)) (k : String) (v : MVal) : List (String × MVal) :=
  (k, v) :: m.filter (fun p => p.1 != k)

/-- `metadata.get(k, d)` from Python. -/
def mgetD (m : List (String × MVal)) (k : String) (d : MVal) : MVal :=
  (mget m k).getD d

/-- `metadata.setdefault(k, v)` from Python. -/
def msetdefault (m : List (String × MVal)) (k : String) (v : MVal) : List (String × MVal) :=
  if (mget m k).isSome then m else mset m k v

/-- A LangChain `Document`: page content plus a metadata dict. -/
structure Document where
  page_content : String
  metadata : List (String × MVal)
deriving DecidableEq, Repr

/-- Python substring test `needle in hay`. -/
def strContains (hay needle : String) : Bool :=
  (List.range (hay.data.length + 1)).any (fun i => needle.data.isPrefixOf (hay.data.drop i))

/-- Python slicing `s[:n]` (first `n` characters). -/
def pytake (s : String) (n : Nat) : String :=
  String.mk (s.data.take n)

/-- Python `str.strip()`: leading and trailing whitespace removed. -/
def pytrim (s : String) : String :=
  String.mk (((s.data.dropWhile Char.isWhitespace).reverse.dropWhile
    Char.isWhitespace).reverse)

/-- Python `str.lower()` (basic latin, as the error-mapping substrings use). -/
def pylower (s : String) : String :=
  String.mk (s.data.map Char.toLower)

/-- `doc.page_content[:250] + ("..." if len(doc.page_content) > 250 else "")`
from `main.py` line 146. -/
def snippet (s : String) : String :=
  pytake s 250 ++ (if 250 < s.length then "..." else "")

/-! ### Ingestion pipeline (`rag_pipeline.py`) -/

/-- Loop body of `rag_pipeline.py` lines 126-128: tag one page with `doc_id`
and `page_number = page.metadata.get("page", i)` (the loader-supplied value,
falling back to the 1-based position `i`). -/
def tagPage (docId : String) (i : Nat) (p : Document) : Document :=
  let m1 := mset p.metadata "doc_id" (MVal.str docId)
  let m2 := mset m1 "page_number" (mgetD m1 "page" (MVal.int (Int.ofNat i)))
  { p with metadata := m2 }

/-- `for i, page in enumerate(pages, start=1)` tagging every page. -/
def tagPagesFrom (docId : String) (i : Nat) : List Document → List Document
  | [] => []
  | p :: rest => tagPage docId i p :: tagPagesFrom docId (i + 1) rest

def tagPages (docId : String) (pages : List Document) : List Document :=
  tagPagesFrom docId 1 pages

/-- `text_splitter.split_documents`: the splitting of one text into pieces
(each with its start offset, from `add_start_index=True`) is the external
splitter parameter `split`; every piece inherits a copy of its parent
document's metadata, as the LangChain splitter does. -/
def split_documents (split : String → List (String × Nat)) (docs : List Document) :
    List Document :=
  docs.flatMap (fun d =>
    (split d.page_content).map (fun piece =>
      { page_content := piece.1,
        metadata := mset d.metadata "start_index" (MVal.int (Int.ofNat piece.2)) }))

/-- `ingest_pdf` (`rag_pipeline.py` lines 108-147), after `loader.load()` has
produced `pages`. `genId` models `str(uuid.uuid4())`; `document_id = doc_id or
str(uuid.uuid4())` treats an empty string as absent. Returns the chunk list
upserted to the vector store and the returned `document_id`. -/
def ingest_pdf (split : String → List (String × Nat)) (genId : String)
    (docIdOpt : Option String) (pages : List Document) : List Document × String :=
  let document_id := match docIdOpt with
    | some d => if d = "" then genId else d
    | none => genId
  let tagged := tagPages document_id pages
  let chunks := split_documents split tagged
  let chunks2 := chunks.map (fun c =>
    { c with metadata := msetdefault c.metadata "doc_id" (MVal.str document_id) })
  (chunks2, document_id)

/-! ### Retrieval (`rag_pipeline.py` lines 149-204) -/

/-- The Pinecone metadata filter `{"doc_id": {"$eq": doc_id}}`. -/
def doc_filter (docId : String) (d : Document) : Bool :=
  mget d.metadata "doc_id" == some (MVal.str docId)

/-- Invoking the retriever of `get_retriever_for_doc`: the vector store is the
list of upserted chunks, `score` is the external similarity of each chunk to
the question's embedding, and the result is the top `k = 5` chunks among those
matching the `doc_id` equality filter. -/
def get_retriever_for_doc (store : List Document) (score : Document → Nat)
    (docId : String) : List Document :=
  ((store.filter (doc_filter docId)).insertionSort
    (fun a b => score b ≤ score a)).take 5

/-- `_format_docs` (`rag_pipeline.py` lines 169-170). -/
def format_docs (docs : List Document) : String :=
  String.intercalate "\n\n" (docs.map (fun d => d.page_content))

/-! ### Chat endpoint (`main.py` lines 122-162) -/

structure ChatMessage where
  role : String
  content : String
deriving DecidableEq, Repr

structure ChatRequest where
  doc_id : String
  question : String
  history : Option (List ChatMessage)
deriving DecidableEq, Repr

/-- One entry of the `sources` list built at `main.py` lines 142-149. -/
structure SourceInfo where
  page_number : MVal
  snippet : String
  doc_id : MVal
deriving DecidableEq, Repr

/-- Result of the chat endpoint: a `ChatResponse` or an `HTTPException`
(status code, detail). -/
inductive ChatOutcome where
  | ok : String → List SourceInfo → ChatOutcome
  | err : Nat → String → ChatOutcome
deriving DecidableEq, Repr

/-- `source_info` for one retrieved chunk (`main.py` lines 144-148). -/
def mkSource (d : Document) : SourceInfo :=
  { page_number := mgetD d.metadata "page_number" (MVal.str "N/A"),
    snippet := snippet d.page_content,
    doc_id := mgetD d.metadata "doc_id" (MVal.str "N/A") }

/-- The `except` branch of `chat_with_doc` (`main.py` lines 153-162):
substring matching on the exception text. -/
def chat_error_detail (docId : String) (emsg : String) : String :=
  if strContains (pylower emsg) "index" || strContains (pylower emsg) "not found" then
    "Document avec doc_id \x27" ++ docId ++
      "\x27 non trouvé. Assurez-vous que le document a été correctement uploadé."
  else if strContains (pylower emsg) "timeout" then
    "Délai d\x27attente dépassé lors de la communication avec Azure OpenAI. Veuillez réessayer."
  else
    "Erreur lors de la génération de la réponse: " ++ emsg

/-- `chat_with_doc` (`main.py` lines 122-162). The completion model `llm`
takes the formatted context and the question and either returns the generated
answer or raises (is in error); retrieval over the list-modelled store cannot
itself raise. `RunnableParallel` invokes the retriever for both the answer
chain and `source_documents`, deterministically giving the same chunks. -/
def chat_with_doc (store : List Document) (score : Document → Nat)
    (llm : String → String → Except String String) (req : ChatRequest) : ChatOutcome :=
  if pytrim req.doc_id = "" then .err 400 "doc_id est requis"
  else if pytrim req.question = "" then .err 400 "question est requise"
  else
    let docs := get_retriever_for_doc store score req.doc_id
    match llm (format_docs docs) req.question with
    | .error e => .err 500 (chat_error_detail req.doc_id e)
    | .ok answer => .ok answer (docs.map mkSource)

/-! ### Upload endpoint (`main.py` lines 72-120) -/

structure UploadFile where
  content_type : String
  filename : String
  content : List Nat
deriving DecidableEq, Repr

/-- A Python exception value: an `HTTPException(status_code, detail)` or any
other exception carrying a message. -/
inductive PyErr where
  | http : Nat → String → PyErr
  | exc : String → PyErr
deriving DecidableEq, Repr

/-- `str(e)`: Starlette's `HTTPException.__str__` is
`f"{self.status_code}: {self.detail}"`. -/
def str_of_err : PyErr → String
  | .http c d => toString c ++ ": " ++ d
  | .exc m => m

/-- Result of the upload endpoint: `UploadResponse(doc_id, message, filename)`
or an `HTTPException`. -/
inductive UploadOutcome where
  | ok : String → String → String → UploadOutcome
  | err : Nat → String → UploadOutcome
deriving DecidableEq, Repr

/-- The `try` body of `upload_pdf` (`main.py` lines 92-108): the zero-byte
check raises `HTTPException(400, ...)` *inside* the `try`; the PDF loader
(`loadPdf`, external) may raise; otherwise `ingest_pdf` runs and its chunks
are upserted. -/
def upload_body (split : String → List (String × Nat)) (genId : String)
    (loadPdf : List Nat → Except String (List Document)) (store : List Document)
    (file : UploadFile) : Except PyErr (UploadOutcome × List Document) :=
  if file.content.length = 0 then
    .error (.http 400 "Le fichier PDF est vide")
  else
    match loadPdf file.content with
    | .error e => .error (.exc e)
    | .ok pages =>
        let r := ingest_pdf split genId none pages
        .ok (.ok r.2 "PDF traité et ingéré avec succès dans Azure OpenAI + Pinecone"
              file.filename,
             store ++ r.1)

/-- The `except Exception` branch of `upload_pdf` (`main.py` lines 110-115). -/
def upload_error_message (e : PyErr) : String :=
  let s := str_of_err e
  if strContains s "PDF" && strContains (pylower s) "corrupt" then
    "Le fichier PDF semble corrompu ou invalide"
  else
    "Erreur lors du traitement du PDF: " ++ s

/-- `upload_pdf` (`main.py` lines 72-120). The content-type check happens
before the `try`; everything the `try` body raises — including the
`HTTPException(400)` for an empty file — is caught by `except Exception` and
re-raised as a 500 with the wrapped message. Returns the HTTP outcome and the
vector store after the request. -/
def upload_pdf (split : String → List (String × Nat)) (genId : String)
    (loadPdf : List Nat → Except String (List Document)) (store : List Document)
    (file : UploadFile) : UploadOutcome × List Document :=
  if file.content_type ≠ "application/pdf" then
    (.err 400 "Le fichier doit être un PDF (application/pdf)", store)
  else
    match upload_body split genId loadPdf store file with
    | .ok r => r
    | .error e => (.err 500 (upload_error_message e), store)

/-! ### Gateway (`src/frontend/app.py`) -/

def BACKEND_API_URL : String := "http://localhost:8000"

/-- The Flask session: `'doc_id' in session` iff `doc_id` is `some`. -/
structure GSession where
  doc_id : Option String
  filename : Option String
deriving DecidableEq, Repr

/-- Outcome of the gateway's `requests.post` to the backend `/chat`: an HTTP
response (200 with answer and sources, or another status with an optional
`detail`), a timeout, a connection error, or any other exception. -/
inductive UpstreamChat where
  | ok : String → List SourceInfo → UpstreamChat
  | errStatus : Nat → Option String → UpstreamChat
  | timeout : UpstreamChat
  | connError : UpstreamChat
  | otherExc : String → UpstreamChat
deriving DecidableEq, Repr

/-- The gateway's `/chat` JSON reply: success body (answer, sources,
timestamp) or an error body with its HTTP status. -/
inductive GChatResult where
  | ok : String → List SourceInfo → String → GChatResult
  | err : String → Nat → GChatResult
deriving DecidableEq, Repr

/-- `chat` (`frontend/app.py` lines 61-102). The backend call is the external
parameter `backend`, applied to the forwarded doc_id, question, history and
the literal timeout `30` from line 83; `now` models
`datetime.now().strftime(...)`. -/
def gateway_chat (backend : String → String → List ChatMessage → Nat → UpstreamChat)
    (now : String) (sess : GSession) (question : String) (hist : List ChatMessage) :
    GChatResult :=
  match sess.doc_id with
  | none => .err "Veuillez d\x27abord uploader un PDF" 400
  | some docId =>
    if pytrim question = "" then .err "La question ne peut pas être vide" 400
    else
      match backend docId (pytrim question) hist 30 with
      | .ok answer sources => .ok answer sources now
      | .errStatus _ detail => .err (detail.getD "Erreur lors de la génération") 500
      | .timeout => .err "La requête a pris trop de temps. Veuillez réessayer." 408
      | .connError => .err "Impossible de se connecter au serveur backend" 500
      | .otherExc e => .err ("Erreur: " ++ e) 500

/-- `reset_session` (`frontend/app.py` lines 104-108): `session.clear()`. -/
def reset_session (_ : GSession) : GSession :=
  { doc_id := none, filename := none }

/-- Outcome of the gateway's `requests.get` on the backend `/health`: a
response with some status code, or any exception (timeout, connection
refusal, ...) caught by the bare `except`. -/
inductive HealthUpstream where
  | resp : Nat → HealthUpstream
  | exc : HealthUpstream
deriving DecidableEq, Repr

/-- Body of the gateway's `/health` JSON reply. -/
structure HealthBody where
  frontend : String
  backend : String
  backend_url : String
  timestamp : String
deriving DecidableEq, Repr

/-- `health_check` (`frontend/app.py` lines 110-130): body and HTTP status. -/
def health_check (upstream : HealthUpstream) (now : String) : HealthBody × Nat :=
  match upstream with
  | .resp code =>
      ({ frontend := "healthy",
         backend := if code = 200 then "healthy" else "unreachable",
         backend_url := BACKEND_API_URL,
         timestamp := now }, 200)
  | .exc =>
      ({ frontend := "healthy",
         backend := "unreachable",
         backend_url := BACKEND_API_URL,
         timestamp := now }, 503)

/-! ### Elimination helper and concrete data used by witnesses and counterexamples -/

/-- Holds when the chat outcome is a success whose answer and sources satisfy
`P`. -/
def chatOk (o : ChatOutcome) (P : String → List SourceInfo → Prop) : Prop :=
  match o with
  | .ok a s => P a s
  | .err _ _ => False

/-- The `sources` list of a chat outcome (empty for an error). -/
def sources_of : ChatOutcome → List SourceInfo
  | .ok _ s => s
  | .err _ _ => []

/-- A trivial splitter: one chunk per page, start offset 0. -/
def split1 (s : String) : List (String × Nat) := [(s, 0)]

/-- Loader output for a 3-page `report.pdf`: the PDF loader tags every page
with its 0-based index under the metadata key `"page"`. -/
def page_a : Document :=
  { page_content := "Intro text of the report.",
    metadata := [("source", MVal.str "report.pdf"), ("page", MVal.int 0)] }

def page_b : Document :=
  { page_content := "Middle section of the report.",
    metadata := [("source", MVal.str "report.pdf"), ("page", MVal.int 1)] }

def page_c : Document :=
  { page_content := "Closing remarks of the report.",
    metadata := [("source", MVal.str "report.pdf"), ("page", MVal.int 2)] }

def pages3 : List Document := [page_a, page_b, page_c]

def w1_doc : Document :=
  { page_content := "alpha", metadata := [("doc_id", MVal.str "d1")] }

def w1_store : List Document :=
  [w1_doc, { page_content := "beta", metadata := [("doc_id", MVal.str "d2")] }]

def c3_store : List Document :=
  [{ page_content := "alpha text",
     metadata := [("doc_id", MVal.str "a"), ("page_number", MVal.int 1)] }]

def c3_llm : String → String → Except String String :=
  fun _ _ => .ok "I cannot find the answer in the context."

def c6_store : List Document := (ingest_pdf split1 "gen-uuid" (some "d1") pages3).1

def c6_llm : String → String → Except String String :=
  fun _ _ => .ok "The report summarizes quarterly results."

def load_none : List Nat → Except String (List Document) := fun _ => .ok []

def empty_pdf : UploadFile :=
  { content_type := "application/pdf", filename := "report.pdf", content := [] }

def txt_file : UploadFile :=
  { content_type := "text/plain", filename := "notes.txt", content := [1, 2] }

def c2_store : List Document := [w1_doc]

def long_text : String := String.mk (List.replicate 251 'a')

/-! ### Metadata dictionary lemmas -/

theorem mget_mset_self (m : List (String × MVal)) (k : String) (v : MVal) :
    mget (mset m k v) k = some v := by
  simp [mget, mset, List.find?]

theorem find?_filter_ne (m : List (String × MVal)) (k k' : String) (h : k' ≠ k) :
    (m.filter (fun p => p.1 != k)).find? (fun p => p.1 == k')
      = m.find? (fun p => p.1 == k') := by
  induction m with
  | nil => rfl
  | cons a t ih =>
    by_cases hak : a.1 = k
    · have h1 : (a.1 != k) = false := by simp [hak]
      have h2 : (a.1 == k') = false := by
        simp [hak]
        exact fun he => h he.symm
      simp [List.filter_cons, h1, List.find?_cons, h2, ih]
    · have h1 : (a.1 != k) = true := by simp [hak]
      by_cases hak' : a.1 = k'
      · simp only [List.filter_cons, h1, if_true]
        simp [List.find?_cons, hak']
      · have h2 : (a.1 == k') = false := by simp [hak']
        simp [List.filter_cons, h1, List.find?_cons, h2, ih]

theorem mget_mset_ne (m : List (String × MVal)) (k k' : String) (v : MVal) (h : k' ≠ k) :
    mget (mset m k v) k' = mget m k' := by
  have h2 : (k == k') = false := by
    simp
    exact fun he => h he.symm
  simp [mget, mset, List.find?_cons, h2, find?_filter_ne m k k' h]

theorem msetdefault_of_isSome (m : List (String × MVal)) (k : String) (v : MVal)
    (h : (mget m k).isSome) : msetdefault m k v = m := by
  simp [msetdefault, h]

/-! ### Snippet truncation lemmas (`main.py` line 146) -/

theorem snippet_short (s : String) (h : s.length ≤ 250) : snippet s = s := by
  obtain ⟨l⟩ := s
  have hl : (String.mk l).length = l.length := rfl
  rw [hl] at h
  have ht : l.take 250 = l := List.take_of_length_le h
  simp [snippet, pytake, hl, Nat.not_lt.mpr h, ht]

theorem snippet_long (s : String) (h : 250 < s.length) :
    snippet s = pytake s 250 ++ "..." := by
  simp [snippet, h]

/-! ### Ingestion lemmas -/

theorem mem_tagPagesFrom {docId : String} {i : Nat} {l : List Document} {d : Document}
    (h : d ∈ tagPagesFrom docId i l) : ∃ j p, p ∈ l ∧ d = tagPage docId j p := by
  induction l generalizing i with
  | nil => cases h
  | cons q rest ih =>
    rcases List.mem_cons.mp h with h1 | h2
    · exact ⟨i, q, List.mem_cons_self q rest, h1⟩
    · obtain ⟨j, p, hp, he⟩ := ih h2
      exact ⟨j, p, List.mem_cons_of_mem q hp, he⟩

theorem mget_tagPage_doc_id (docId : String) (j : Nat) (p : Document) :
    mget (tagPage docId j p).metadata "doc_id" = some (MVal.str docId) := by
  simp only [tagPage]
  rw [mget_mset_ne _ _ _ _ (by decide), mget_mset_self]

theorem mget_tagPage_page_number (docId : String) (j : Nat) (p : Document) :
    mget (tagPage docId j p).metadata "page_number"
      = some (mgetD p.metadata "page" (MVal.int (Int.ofNat j))) := by
  simp only [tagPage, mget_mset_self, mgetD]
  rw [mget_mset_ne _ _ _ _ (by decide)]

theorem mem_split_documents {split : String → List (String × Nat)}
    {docs : List Document} {c : Document} (h : c ∈ split_documents split docs) :
    ∃ d ∈ docs, ∃ piece : String × Nat,
      c = { page_content := piece.1,
            metadata := mset d.metadata "start_index" (MVal.int (Int.ofNat piece.2)) } := by
  obtain ⟨d, hd, hc⟩ := List.mem_flatMap.mp h
  obtain ⟨piece, _, he⟩ := List.mem_map.mp hc
  exact ⟨d, hd, piece, he.symm⟩

/-- Every chunk produced by `ingest_pdf` carries the returned `document_id`
in its `doc_id` metadata, and a `page_number` equal to the loader-supplied
`page` metadata of one of the input pages (falling back to a positional
index). -/
theorem ingest_chunk_fields {split : String → List (String × Nat)} {genId : String}
    {docIdOpt : Option String} {pages : List Document} {c : Document}
    (h : c ∈ (ingest_pdf split genId docIdOpt pages).1) :
    mget c.metadata "doc_id"
        = some (MVal.str (ingest_pdf split genId docIdOpt pages).2) ∧
      ∃ j : Nat, ∃ p ∈ pages,
        mget c.metadata "page_number"
          = some (mgetD p.metadata "page" (MVal.int (Int.ofNat j))) := by
  simp only [ingest_pdf] at h ⊢
  obtain ⟨c1, hc1, he⟩ := List.mem_map.mp h
  obtain ⟨d, hd, piece, he1⟩ := mem_split_documents hc1
  obtain ⟨j, p, hp, he2⟩ := mem_tagPagesFrom hd
  subst he2
  have hdoc : mget c1.metadata "doc_id"
      = some (MVal.str ((ingest_pdf split genId docIdOpt pages).2)) := by
    rw [he1]
    simp only [ingest_pdf]
    rw [mget_mset_ne _ _ _ _ (by decide), mget_tagPage_doc_id]
  have hmeta : c.metadata = c1.metadata := by
    rw [← he]
    exact msetdefault_of_isSome _ _ _ (by rw [hdoc]; rfl)
  constructor
  · rw [hmeta]
    exact hdoc
  · refine ⟨j, p, hp, ?_⟩
    rw [hmeta, he1]
    simp only
    rw [mget_mset_ne _ _ _ _ (by decide), mget_tagPage_page_number]

/-! ### Retrieval and chat lemmas -/

theorem mem_retriever {store : List Document} {score : Document → Nat} {docId : String}
    {d : Document} (h : d ∈ get_retriever_for_doc store score docId) :
    d ∈ store ∧ mget d.metadata "doc_id" = some (MVal.str docId) := by
  unfold get_retriever_for_doc at h
  have h1 := List.mem_of_mem_take h
  rw [List.mem_insertionSort] at h1
  have h2 := List.mem_filter.mp h1
  refine ⟨h2.1, ?_⟩
  have h3 := h2.2
  simpa [doc_filter] using h3

theorem chat_with_doc_ok (store : List Document) (score : Document → Nat)
    (llm : String → String → Except String String) (docId q ans : String)
    (hd : pytrim docId ≠ "") (hq : pytrim q ≠ "")
    (hl : llm (format_docs (get_retriever_for_doc store score docId)) q = .ok ans) :
    chat_with_doc store score llm { doc_id := docId, question := q, history := none }
      = .ok ans ((get_retriever_for_doc store score docId).map mkSource) := by
  simp [chat_with_doc, hd, hq, hl]

theorem chat_with_doc_err (store : List Document) (score : Document → Nat)
    (llm : String → String → Except String String) (docId q e : String)
    (hd : pytrim docId ≠ "") (hq : pytrim q ≠ "")
    (hl : llm (format_docs (get_retriever_for_doc store score docId)) q = .error e) :
    chat_with_doc store score llm { doc_id := docId, question := q, history := none }
      = .err 500 (chat_error_detail docId e) := by
  simp [chat_with_doc, hd, hq, hl]

/-! ### Claim theorems -/

/-- C1: for every chat request with a given doc_id, the retrieval used to
answer is restricted by an equality filter on doc_id requesting the top-5
nearest chunks, so every retrieved chunk's metadata doc_id equals the
requested doc_id — chunks of a different document are never retrieved — and
at most 5 chunks are returned. -/
theorem C1_retrieval_isolation (store : List Document) (score : Document → Nat)
    (docId : String) :
    (∀ d ∈ get_retriever_for_doc store score docId,
        mget d.metadata "doc_id" = some (MVal.str docId)) ∧
    (get_retriever_for_doc store score docId).length ≤ 5 := by
  constructor
  · intro d hd
    exact (mem_retriever hd).2
  · exact List.length_take_le 5 _

/-- Witness for C1: in a store holding chunks of documents `d1` and `d2`, the
chunk retrieved for `d1` indeed carries doc_id `d1`. -/
theorem C1_retrieval_isolation_witness :
    mget w1_doc.metadata "doc_id" = some (MVal.str "d1") :=
  (C1_retrieval_isolation w1_store (fun _ => 0) "d1").1 w1_doc (by decide)

/-- C4: for every successful ingest, every chunk upserted into the vector
index carries the same doc_id in its metadata, and that same doc_id is the
value returned to the caller. -/
theorem C4_ingest_doc_id (split : String → List (String × Nat)) (genId : String)
    (docIdOpt : Option String) (pages : List Document) :
    ∀ c ∈ (ingest_pdf split genId docIdOpt pages).1,
      mget c.metadata "doc_id"
        = some (MVal.str (ingest_pdf split genId docIdOpt pages).2) :=
  fun _ hc => (ingest_chunk_fields hc).1

/-- Witness for C4: the first chunk of a concrete 3-page ingest under `d1`
carries doc_id `d1`. -/
theorem C4_ingest_doc_id_witness :
    mget (((ingest_pdf split1 "gen-uuid" (some "d1") pages3).1.headD
        { page_content := "", metadata := [] }).metadata) "doc_id"
      = some (MVal.str "d1") :=
  C4_ingest_doc_id split1 "gen-uuid" (some "d1") pages3 _ (by decide)

/-- C5: for every retrieved chunk whose text is longer than 250 characters,
the snippet in the returned source citation equals the first 250 characters
of the text followed by an ellipsis marker; for text of at most 250
characters, the snippet equals the text unmodified. -/
theorem C5_snippet_truncation (s : String) :
    (250 < s.length → snippet s = pytake s 250 ++ "...") ∧
    (s.length ≤ 250 → snippet s = s) :=
  ⟨snippet_long s, snippet_short s⟩

set_option maxRecDepth 4000 in
/-- Witness for C5: a 251-character text is truncated with an ellipsis; a
short text is returned unmodified. -/
theorem C5_snippet_truncation_witness :
    snippet long_text = pytake long_text 250 ++ "..." ∧ snippet "short" = "short" :=
  ⟨(C5_snippet_truncation long_text).1 (by decide),
   (C5_snippet_truncation "short").2 (by decide)⟩

/-- C2 (code bug evaluation): a zero-byte upload with content type
`application/pdf` does NOT produce the 400 validation error with its message
verbatim: the `HTTPException(400, "Le fichier PDF est vide")` raised inside
the `try` block (`main.py` line 99) is caught by `except Exception` (line
110) and re-raised as a 500 with the wrapped message. A non-PDF content type
does get the 400 verbatim. In both cases no vector-store write occurs (the
store is returned unchanged). -/
theorem C2_empty_file_bug :
    upload_pdf split1 "gen-uuid" load_none c2_store empty_pdf
        = (.err 500 "Erreur lors du traitement du PDF: 400: Le fichier PDF est vide",
           c2_store) ∧
    upload_pdf split1 "gen-uuid" load_none c2_store txt_file
        = (.err 400 "Le fichier doit être un PDF (application/pdf)", c2_store) := by
  constructor
  · decide
  · decide

/-- C3 counterexample: a chat request whose doc_id matches no stored chunk is
answered with a 200 success carrying the model's answer and an empty sources
list — not a 500 "document not found" error. The filter matching nothing
makes the retrieval return no chunks; nothing raises, so the `except` branch
that produces the not-found message is never reached. -/
theorem C3_unknown_doc_counterexample :
    chat_with_doc c3_store (fun _ => 0) c3_llm
        { doc_id := "unknown", question := "What is this about?", history := none }
      = .ok "I cannot find the answer in the context." [] ∧
    ChatOutcome.ok "I cannot find the answer in the context." [] ≠
      ChatOutcome.err 500 (chat_error_detail "unknown" "not found") :=
  ⟨by decide, fun h => ChatOutcome.noConfusion h⟩

/-- C3 amended: a chat request whose doc_id matches no stored chunk does not
itself fail: retrieval returns no chunks and, when the completion call
succeeds, the service responds successfully with the model's answer and an
empty sources list. The 500 error whose message indicates the document was
not found is produced only when an underlying call raises an error whose
text contains "index" or "not found" (e.g. when the vector index itself does
not exist). -/
theorem C3_unknown_doc_amended (store : List Document) (score : Document → Nat)
    (llm : String → String → Except String String) (docId q : String)
    (hd : pytrim docId ≠ "") (hq : pytrim q ≠ "")
    (hf : store.filter (doc_filter docId) = []) :
    (∀ a, llm (format_docs []) q = .ok a →
      chat_with_doc store score llm { doc_id := docId, question := q, history := none }
        = .ok a []) ∧
    (∀ e, llm (format_docs []) q = .error e →
      strContains (pylower e) "not found" = true →
      chat_with_doc store score llm { doc_id := docId, question := q, history := none }
        = .err 500 ("Document avec doc_id \x27" ++ docId ++
            "\x27 non trouvé. Assurez-vous que le document a été correctement uploadé.")) := by
  have hret : get_retriever_for_doc store score docId = [] := by
    simp [get_retriever_for_doc, hf]
  constructor
  · intro a ha
    rw [chat_with_doc_ok store score llm docId q a hd hq (by rw [hret]; exact ha), hret]
    rfl
  · intro e he hnf
    rw [chat_with_doc_err store score llm docId q e hd hq (by rw [hret]; exact he)]
    simp [chat_error_detail, hnf]

/-- Witness for C3 amended: both branches at concrete inputs — a success from
the model gives a 200 with empty sources; a raised "index not found" error
gives the 500 not-found message. -/
theorem C3_unknown_doc_amended_witness :
    chat_with_doc c3_store (fun _ => 0) c3_llm
        { doc_id := "unknown", question := "Hello there", history := none }
      = .ok "I cannot find the answer in the context." [] ∧
    chat_with_doc c3_store (fun _ => 0) (fun _ _ => .error "index not found")
        { doc_id := "unknown", question := "Hello there", history := none }
      = .err 500 ("Document avec doc_id \x27unknown\x27 non trouvé. Assurez-vous que le document a été correctement uploadé.") :=
  ⟨(C3_unknown_doc_amended c3_store (fun _ => 0) c3_llm "unknown" "Hello there"
      (by decide) (by decide) (by decide)).1 _ rfl,
   (C3_unknown_doc_amended c3_store (fun _ => 0) (fun _ _ => .error "index not found")
      "unknown" "Hello there" (by decide) (by decide) (by decide)).2
      "index not found" rfl (by decide)⟩

/-- The `page` metadata values of the 3-page loader output are 0, 1, 2. -/
theorem pages3_page_values {p : Document} (hp : p ∈ pages3) :
    mget p.metadata "page" = some (MVal.int 0) ∨
    mget p.metadata "page" = some (MVal.int 1) ∨
    mget p.metadata "page" = some (MVal.int 2) := by
  simp [pages3] at hp
  rcases hp with h | h | h
  · subst h; exact Or.inl (by decide)
  · subst h; exact Or.inr (Or.inl (by decide))
  · subst h; exact Or.inr (Or.inr (by decide))

/-- C6 counterexample: after ingesting the 3-page `report.pdf` under doc_id
`d1`, the source citations for a question against `d1` do NOT all have
page_number in {1,2,3}: `ingest_pdf` (rag_pipeline.py line 128) prefers the
PDF loader's `"page"` metadata, which is the 0-based page index, so the
citations carry page numbers 0, 1, 2. -/
theorem C6_page_numbers_counterexample :
    ¬ (∀ s ∈ sources_of (chat_with_doc c6_store (fun _ => 0) c6_llm
          { doc_id := "d1", question := "What is the summary?", history := none }),
        s.page_number = MVal.int 1 ∨ s.page_number = MVal.int 2 ∨
          s.page_number = MVal.int 3) := by
  decide

/-- C6 amended: after ingesting a 3-page PDF under doc_id `d1`, every source
citation returned for a question against `d1` has doc_id `d1` and a
page_number drawn from the loader's 0-based page indices {0,1,2}, and the
answer equals the completion model's output — non-empty whenever that output
is non-empty. -/
theorem C6_scenario_amended (split : String → List (String × Nat))
    (score : Document → Nat) (llm : String → String → Except String String)
    (q ans : String) (hq : pytrim q ≠ "")
    (hl : ∀ ctx, llm ctx q = .ok ans) (ha : ans ≠ "") :
    chatOk (chat_with_doc (ingest_pdf split "gen-uuid" (some "d1") pages3).1 score llm
        { doc_id := "d1", question := q, history := none })
      (fun a srcs => a = ans ∧ a ≠ "" ∧ ∀ s ∈ srcs,
        s.doc_id = MVal.str "d1" ∧
        (s.page_number = MVal.int 0 ∨ s.page_number = MVal.int 1 ∨
          s.page_number = MVal.int 2)) := by
  rw [chat_with_doc_ok _ score llm "d1" q ans (by decide) hq (hl _)]
  refine ⟨rfl, ha, ?_⟩
  intro s hs
  obtain ⟨d, hd, rfl⟩ := List.mem_map.mp hs
  have hmem := (mem_retriever hd).1
  obtain ⟨hdoc, j, p, hp, hpn⟩ := ingest_chunk_fields hmem
  have hid : (ingest_pdf split "gen-uuid" (some "d1") pages3).2 = "d1" := rfl
  rw [hid] at hdoc
  constructor
  · simp [mkSource, mgetD, hdoc]
  · rcases pages3_page_values hp with h | h | h <;> simp [mkSource, mgetD, hpn, h]

/-- Witness for C6 amended: the concrete scenario with a one-chunk-per-page
splitter and a fixed model answer. -/
theorem C6_scenario_amended_witness :
    chatOk (chat_with_doc (ingest_pdf split1 "gen-uuid" (some "d1") pages3).1
        (fun _ => 0) c6_llm
        { doc_id := "d1", question := "What is the summary?", history := none })
      (fun a srcs => a = "The report summarizes quarterly results." ∧ a ≠ "" ∧
        ∀ s ∈ srcs, s.doc_id = MVal.str "d1" ∧
          (s.page_number = MVal.int 0 ∨ s.page_number = MVal.int 1 ∨
            s.page_number = MVal.int 2)) :=
  C6_scenario_amended split1 (fun _ => 0) c6_llm "What is the summary?"
    "The report summarizes quarterly results." (by decide) (fun _ => rfl) (by decide)

/-- C7: a Gateway chat request while the session holds no doc_id fails with
the "no active document"-style error ("Veuillez d\x27abord uploader un PDF",
status 400) and makes no call to the Ingestion/Answer Service (the result is
the same for every backend); in particular a chat request immediately after a
session reset fails this way. -/
theorem C7_no_active_document
    (backend backend2 : String → String → List ChatMessage → Nat → UpstreamChat)
    (now now2 : String) (sess sess2 : GSession) (q q2 : String)
    (hist hist2 : List ChatMessage) (hs : sess.doc_id = none) :
    gateway_chat backend now sess q hist
        = .err "Veuillez d\x27abord uploader un PDF" 400 ∧
    gateway_chat backend now sess q hist = gateway_chat backend2 now sess q hist ∧
    gateway_chat backend now2 (reset_session sess2) q2 hist2
        = .err "Veuillez d\x27abord uploader un PDF" 400 := by
  refine ⟨?_, ?_, ?_⟩ <;> simp [gateway_chat, hs, reset_session]

/-- Witness for C7: concrete empty session and concrete backends. -/
theorem C7_no_active_document_witness :
    gateway_chat (fun _ _ _ _ => UpstreamChat.timeout) "12:00:00"
        { doc_id := none, filename := none } "What?" []
        = .err "Veuillez d\x27abord uploader un PDF" 400 ∧
    gateway_chat (fun _ _ _ _ => UpstreamChat.timeout) "12:00:00"
        { doc_id := none, filename := none } "What?" []
      = gateway_chat (fun _ _ _ _ => UpstreamChat.connError) "12:00:00"
        { doc_id := none, filename := none } "What?" [] ∧
    gateway_chat (fun _ _ _ _ => UpstreamChat.timeout) "12:00:01"
        (reset_session { doc_id := some "d1", filename := some "report.pdf" })
        "Again?" []
        = .err "Veuillez d\x27abord uploader un PDF" 400 :=
  C7_no_active_document (fun _ _ _ _ => UpstreamChat.timeout)
    (fun _ _ _ _ => UpstreamChat.connError) "12:00:00" "12:00:01"
    { doc_id := none, filename := none }
    { doc_id := some "d1", filename := some "report.pdf" } "What?" "Again?" [] [] rfl

/-- C8: the Gateway's chat call to the backend is bounded by a 30-time-unit
timeout (the result depends only on the backend's behaviour at timeout 30),
and the Gateway maps an upstream timeout to a 408 request-timeout error and
an upstream connection failure to a 500 service-unreachable error — two
distinct structured JSON error replies. -/
theorem C8_timeout_mapping
    (backend backend2 : String → String → List ChatMessage → Nat → UpstreamChat)
    (now : String) (sess : GSession) (q : String) (hist : List ChatMessage)
    (docId : String) (hs : sess.doc_id = some docId) (hq : pytrim q ≠ "") :
    (backend docId (pytrim q) hist 30 = .timeout →
      gateway_chat backend now sess q hist
        = .err "La requête a pris trop de temps. Veuillez réessayer." 408) ∧
    (backend docId (pytrim q) hist 30 = .connError →
      gateway_chat backend now sess q hist
        = .err "Impossible de se connecter au serveur backend" 500) ∧
    ((∀ d q0 h0, backend d q0 h0 30 = backend2 d q0 h0 30) →
      gateway_chat backend now sess q hist = gateway_chat backend2 now sess q hist) := by
  refine ⟨fun h => ?_, fun h => ?_, fun h => ?_⟩ <;> simp [gateway_chat, hs, hq, h]

/-- Witness for C8: a backend that times out yields the 408 reply; one that
is unreachable yields the 500 reply. -/
theorem C8_timeout_mapping_witness :
    gateway_chat (fun _ _ _ _ => UpstreamChat.timeout) "12:00:00"
        { doc_id := some "d1", filename := none } "What?" []
        = .err "La requête a pris trop de temps. Veuillez réessayer." 408 ∧
    gateway_chat (fun _ _ _ _ => UpstreamChat.connError) "12:00:00"
        { doc_id := some "d1", filename := none } "What?" []
        = .err "Impossible de se connecter au serveur backend" 500 :=
  ⟨(C8_timeout_mapping (fun _ _ _ _ => UpstreamChat.timeout)
      (fun _ _ _ _ => UpstreamChat.timeout) "12:00:00"
      { doc_id := some "d1", filename := none } "What?" [] "d1" rfl (by decide)).1 rfl,
   (C8_timeout_mapping (fun _ _ _ _ => UpstreamChat.connError)
      (fun _ _ _ _ => UpstreamChat.connError) "12:00:00"
      { doc_id := some "d1", filename := none } "What?" [] "d1" rfl (by decide)).2.1 rfl⟩

/-- C9: the Gateway health endpoint always reports its own liveness as
healthy and never fails on a backend error: any failure of the backend health
call (the bare `except`, covering connection refusal) yields backend
"unreachable" with status 503, and a backend response yields the
{frontend, backend, backend_url, timestamp} structure with status 200. -/
theorem C9_health_check :
    (∀ u now, (health_check u now).1.frontend = "healthy") ∧
    (∀ now, health_check .exc now
        = ({ frontend := "healthy", backend := "unreachable",
             backend_url := BACKEND_API_URL, timestamp := now }, 503)) ∧
    (∀ c now, health_check (.resp c) now
        = ({ frontend := "healthy",
             backend := if c = 200 then "healthy" else "unreachable",
             backend_url := BACKEND_API_URL, timestamp := now }, 200)) := by
  refine ⟨fun u now => ?_, fun now => rfl, fun c now => rfl⟩
  cases u <;> rfl

/-- C10: a retrieved chunk lacking a page_number or doc_id metadata key
yields the string "N/A" in that field of its source citation rather than an
error, and a chat whose retrieval yields no source documents returns an empty
sources list. -/
theorem C10_missing_metadata (d : Document) (store : List Document)
    (score : Document → Nat) (llm : String → String → Except String String)
    (docId q ans : String) :
    (mget d.metadata "page_number" = none → (mkSource d).page_number = MVal.str "N/A") ∧
    (mget d.metadata "doc_id" = none → (mkSource d).doc_id = MVal.str "N/A") ∧
    (pytrim docId ≠ "" → pytrim q ≠ "" →
      get_retriever_for_doc store score docId = [] →
      llm (format_docs []) q = .ok ans →
      chat_with_doc store score llm { doc_id := docId, question := q, history := none }
        = .ok ans []) := by
  refine ⟨fun h => ?_, fun h => ?_, fun hd hq hr hl => ?_⟩
  · simp [mkSource, mgetD, h]
  · simp [mkSource, mgetD, h]
  · rw [chat_with_doc_ok store score llm docId q ans hd hq (by rw [hr]; exact hl), hr]
    rfl

/-- Witness for C10: a chunk with empty metadata cites "N/A" for both fields,
and a chat over an empty store returns an empty sources list. -/
theorem C10_missing_metadata_witness :
    (mkSource { page_content := "text", metadata := [] }).page_number
        = MVal.str "N/A" ∧
    (mkSource { page_content := "text", metadata := [] }).doc_id = MVal.str "N/A" ∧
    chat_with_doc [] (fun _ => 0) (fun _ _ => .ok "no context answer")
        { doc_id := "d1", question := "What?", history := none }
      = .ok "no context answer" [] :=
  ⟨(C10_missing_metadata { page_content := "text", metadata := [] } [] (fun _ => 0)
      (fun _ _ => .ok "no context answer") "d1" "What?" "no context answer").1 rfl,
   (C10_missing_metadata { page_content := "text", metadata := [] } [] (fun _ => 0)
      (fun _ _ => .ok "no context answer") "d1" "What?" "no context answer").2.1 rfl,
   (C10_missing_metadata { page_content := "text", metadata := [] } [] (fun _ => 0)
      (fun _ _ => .ok "no context answer") "d1" "What?" "no context answer").2.2
      (by decide) (by decide) rfl rfl⟩

end Rag
